import Mathlib

/-!
Shallow embedding of the field-transformation pipeline of `ovio-prism-form`
(`src/airtable_helpers.py`; `src/app.py` carries an older inline copy of the
same `to_pos_int` / `lookup_or_process` / field-map logic).

Modelling conventions:
* a submission models a Flask `request.form` multi-dict as an ordered list of
  key/value pairs; `d[k]` is the first value under `k`, `d.getlist(k)` all of
  them;
* the only Python exception that can escape the pipeline (`KeyError` from a
  missing submission key - `ValueError` and `TypeError` are caught where the
  source catches them) is modelled with `Except PyErr`;
* Python `None` is `Option.none`; a destination value is a `Value`;
* Python `int(s)` is `pyInt` (base-10, ASCII: optional surrounding
  whitespace, optional sign, digits with single underscores between digits);
* the remote airtable client is external to the repository; resolvers are
  therefore parameterised by the remote search results, and the stateful
  `AirTableLinkedRecords` class is embedded with explicit state passing plus
  instrumentation counters for issued queries and created table handles.
-/

/-- A form submission: an ordered multi-map from field name to string value,
as delivered by Flask `request.form`. -/
abbrev Submission := List (String × String)

/-- `d[k]` on a werkzeug MultiDict: the first value stored under `k`, if any. -/
def Submission.get (d : Submission) (k : String) : Option String :=
  (d.find? (fun kv => kv.1 == k)).map (fun kv => kv.2)

/-- `d.getlist(k)`: all values stored under `k`, in order. -/
def Submission.getlist (d : Submission) (k : String) : List String :=
  (d.filter (fun kv => kv.1 == k)).map (fun kv => kv.2)

/-- The one Python exception that can escape the transform pipeline:
`KeyError` from a missing submission key. -/
inductive PyErr where
  | keyError (key : String)
deriving DecidableEq

/-- A destination-row value: Python str, int, bool, or a list whose entries
are record names / record ids (an entry may be Python `None` before the
`_filter_none` step). -/
inductive Value where
  | vstr (s : String)
  | vint (i : Int)
  | vbool (b : Bool)
  | vlist (xs : List (Option String))
deriving DecidableEq

deriving instance DecidableEq for Except

/-- Observer: does an `Except` computation finish without a Python exception? -/
def exceptOk {α : Type} : Except PyErr α → Bool
  | Except.ok _ => true
  | Except.error _ => false

/-- Digit run of Python `int`: after the leading digit, digits with single
underscores allowed between digits (an underscore must be followed by a
digit). `acc` is the value of the digits already consumed. -/
def parseDigitsCore : List Char → Nat → Option Nat
  | [], acc => some acc
  | c :: cs, acc =>
    if c.isDigit then parseDigitsCore cs (acc * 10 + (c.toNat - 48))
    else if c = '_' then
      match cs with
      | [] => none
      | c2 :: cs2 =>
        if c2.isDigit then parseDigitsCore cs2 (acc * 10 + (c2.toNat - 48)) else none
    else none

/-- A nonempty digit run (with internal underscores), or `none`. -/
def parseDigitsPy : List Char → Option Nat
  | [] => none
  | c :: cs => if c.isDigit then parseDigitsCore cs (c.toNat - 48) else none

/-- Sign handling of Python `int` after whitespace stripping. -/
def pyIntCore (cs : List Char) : Option Int :=
  match cs with
  | [] => none
  | c :: rest =>
    if c = '+' then (parseDigitsPy rest).map (fun n => (n : Int))
    else if c = '-' then (parseDigitsPy rest).map (fun n => -(n : Int))
    else (parseDigitsPy cs).map (fun n => (n : Int))

/-- Python `int(s)` for a base-10 ASCII string: `some` of the value, or
`none` where CPython raises `ValueError`. -/
def pyInt (s : String) : Option Int :=
  pyIntCore (((s.data.dropWhile Char.isWhitespace).reverse.dropWhile
    Char.isWhitespace).reverse)

/-- Mathematical value of a decimal digit list (most significant first). -/
def decimalVal (cs : List Char) : Nat :=
  cs.foldl (fun a c => a * 10 + (c.toNat - 48)) 0

/-- `_to_pos_int(field_name)` from src/airtable_helpers.py (and the identical
nested `to_pos_int` in src/app.py): reads `field_name` from the submission,
parses it with `int`; a `ValueError` (non-numeric, or the explicit raise on a
negative value) is caught and yields 0; a `KeyError` from a missing key is
not caught by `except ValueError` and escapes. -/
def _to_pos_int (field_name : String) : Submission → Except PyErr (Option Value) :=
  fun d =>
    match Submission.get d field_name with
    | none => Except.error (PyErr.keyError field_name)
    | some s =>
      match pyInt s with
      | none => Except.ok (some (Value.vint 0))
      | some i => Except.ok (some (Value.vint (if i < 0 then 0 else i)))

/-- `_checkbox_to_bool(field_name)`: `True` when the field is present and its
first value is exactly `"on"`; otherwise the Python function falls through
and returns `None`. -/
def _checkbox_to_bool (field_name : String) : Submission → Except PyErr (Option Value) :=
  fun d =>
    if Submission.get d field_name = some "on" then Except.ok (some (Value.vbool true))
    else Except.ok none

/-- `_get_list(field_name)`: `d.getlist(field_name)`. -/
def _get_list (field_name : String) : Submission → List String :=
  fun d => Submission.getlist d field_name

/-- `_list_to_string(values)`: `", ".join(values)`. -/
def _list_to_string (values : List String) : String :=
  String.intercalate ", " values

/-- `_convert_to_record_ids(names, linked_table)`: `[linked_table[n] for n in
names]`; the linked table is abstracted by the name-to-id function its
`__getitem__` realises. -/
def _convert_to_record_ids (names : List String)
    (linked_table : String → Option String) : List (Option String) :=
  names.map linked_table

/-- `_nonrelational_list_inputs(names, linked_table)`: the names whose lookup
`is None`. -/
def _nonrelational_list_inputs (names : List String)
    (linked_table : String → Option String) : List String :=
  names.filter (fun n => (linked_table n).isNone)

/-- `_filter_in_list(values, members)`. -/
def _filter_in_list (values members : List String) : List String :=
  values.filter (fun v => members.contains v)

/-- `_filter_not_in_list(values, members)`. -/
def _filter_not_in_list (values members : List String) : List String :=
  values.filter (fun v => !(members.contains v))

/-- `_remap_list(values, mapping)`: `mapping[v] if v in mapping else v`. -/
def _remap_list (values : List String) (mapping : List (String × String)) :
    List String :=
  values.map (fun v => match mapping.lookup v with | some w => w | none => v)

/-- `_filter_none(values)`: keep the entries that are not `None`. -/
def _filter_none (values : List (Option String)) : List (Option String) :=
  values.filter (fun v => !v.isNone)

/-- A `FIELD_MAP` entry value: either a literal source key (string) or a
transform function over the submission. -/
inductive FieldRule where
  | key (k : String)
  | fn (f : Submission → Except PyErr (Option Value))

/-- `_lookup_or_call(form_data, f)`: calling a string raises `TypeError`,
which is caught and turned into a key lookup whose `KeyError` returns `None`
early; then, unless the result is a `str`, `_filter_none` is attempted and a
`TypeError` (non-iterable int/bool/None) is ignored. A `KeyError` raised
inside a transform function is not caught. -/
def _lookup_or_call (form_data : Submission) (f : FieldRule) :
    Except PyErr (Option Value) :=
  match f with
  | FieldRule.fn g =>
    match g form_data with
    | Except.error e => Except.error e
    | Except.ok res =>
      match res with
      | some (Value.vlist xs) => Except.ok (some (Value.vlist (_filter_none xs)))
      | other => Except.ok other
  | FieldRule.key k =>
    match Submission.get form_data k with
    | some s => Except.ok (some (Value.vstr s))
    | none => Except.ok none

def VALID_ROLES : List String :=
  ["Developer", "Project Lead", "System Architect", "QA", "Designer"]

def VALID_TYPES : List String :=
  ["Mentoring Organizations", "Mentoring Students",
   "Volunteering - Project Based", "Volunteering - Task Based"]

def CAUSES_MAP : List (String × String) :=
  [("No Poverty", "1. No Poverty"),
   ("Zero Hunger", "2. Zero Hunger"),
   ("Good Health & Well-Being", "3. Good Health and Well-being"),
   ("Quality Education", "4. Quality Education"),
   ("Gender Equality", "5. Gender Equality"),
   ("Clean Water & Sanitation", "6. Clean Water and Sanitation"),
   ("Affordable & Clean Energy", "7. Affordable and Clean Energy"),
   ("Decent Work & Economic Growth", "8. Decent Work and Economic Growth"),
   ("Industry Innovation & Infrastructure", "9. Industry Innovation and Infrastructure"),
   ("Reducing Inequality", "10. Reduced Inequalities"),
   ("Sustainable Cities & Communities", "11. Sustainable Cities and Communities"),
   ("Responsible Consumption & Production", "12. Responsible Consumption and Production"),
   ("Climate Action", "13. Climate Action"),
   ("Life below Water", "14. Life below Water"),
   ("Life on Land", "15. Life on Land"),
   ("Peace, Justice, & Strong Institutions", "16: Peace, Justice and Strong Institutions"),
   ("Partnerships to Achieve the Goal", "17: Partnerships to achieve the Goal")]

/-- The lambda bound to "Country & City of residence":
`", ".join([d["city"], d["country"]])`; the subscripts raise `KeyError` on a
missing key, evaluated left to right. -/
def cityCountryRule : Submission → Except PyErr (Option Value) :=
  fun d =>
    match Submission.get d "city" with
    | none => Except.error (PyErr.keyError "city")
    | some c =>
      match Submission.get d "country" with
      | none => Except.error (PyErr.keyError "country")
      | some co => Except.ok (some (Value.vstr (_list_to_string [c, co])))

/-- `FIELD_MAP` from src/airtable_helpers.py, in source order; the two linked
tables are abstracted by the name-to-id functions their lookups realise
(Python list-of-string results are embedded as lists of `some` entries). -/
def FIELD_MAP (skills_table causes_table : String → Option String) :
    List (String × FieldRule) :=
  [("Name", FieldRule.key "name"),
   ("Email", FieldRule.key "email"),
   ("Country & City of residence", FieldRule.fn cityCountryRule),
   ("LinkedIn", FieldRule.key "linked-in"),
   ("GitHub", FieldRule.key "github"),
   ("Have you ever volunteered for a nonprofit before? If yes,  please specify.",
    FieldRule.key "non-profit-experience"),
   ("How many years of technical experience do you have?",
    FieldRule.fn (_to_pos_int "tech-exp")),
   ("Are you a student?", FieldRule.fn (_checkbox_to_bool "student")),
   ("Are you interested in mentoring?", FieldRule.fn (_checkbox_to_bool "mentor")),
   ("What role would you be most interested in playing?",
    FieldRule.fn (fun d => Except.ok (some (Value.vlist
      ((_filter_in_list (_get_list "roles[]" d) VALID_ROLES).map some))))),
   ("volunteering_type",
    FieldRule.fn (fun d => Except.ok (some (Value.vlist
      ((_filter_in_list (_get_list "types[]" d) VALID_TYPES).map some))))),
   ("other_roles",
    FieldRule.fn (fun d => Except.ok (some (Value.vstr
      (_list_to_string (_filter_not_in_list (_get_list "roles[]" d) VALID_ROLES)))))),
   ("What amazing skills are you bringing?",
    FieldRule.fn (fun d => Except.ok (some (Value.vlist
      (_convert_to_record_ids (_get_list "skills[]" d) skills_table))))),
   ("Which causes are you most motivated by?",
    FieldRule.fn (fun d => Except.ok (some (Value.vlist
      (_convert_to_record_ids (_remap_list (_get_list "causes[]" d) CAUSES_MAP)
        causes_table))))),
   ("How many hours can you commit weekly?", FieldRule.fn (_to_pos_int "hours")),
   ("Are you interested in a specific project?", FieldRule.key "project"),
   ("Is there anything else we should know about you?", FieldRule.key "other"),
   ("Would you like to recommend other impactful projects or organizations that should be featured on the hub?",
    FieldRule.key "recommendations"),
   ("Other causes ?",
    FieldRule.fn (fun d => Except.ok (some (Value.vstr
      (_list_to_string (_nonrelational_list_inputs
        (_remap_list (_get_list "causes[]" d) CAUSES_MAP) causes_table)))))),
   ("Company or University", FieldRule.key "org"),
   ("Other skills?",
    FieldRule.fn (fun d => Except.ok (some (Value.vstr
      (_list_to_string (_nonrelational_list_inputs (_get_list "skills[]" d)
        skills_table))))))]

/-- Body of the inner dict comprehension of `transform_form_to_airtable`:
`(k, _lookup_or_call(form_data, v))` for one `FIELD_MAP` item. -/
def evalEntry (form_data : Submission) (kv : String × FieldRule) :
    Except PyErr (String × Option Value) :=
  match _lookup_or_call form_data kv.2 with
  | Except.error e => Except.error e
  | Except.ok v => Except.ok (kv.1, v)

/-- Left-to-right evaluation of a comprehension whose body may raise: the
first exception aborts the whole comprehension. -/
def exceptMapM {α β : Type} (f : α → Except PyErr β) : List α → Except PyErr (List β)
  | [] => Except.ok []
  | x :: xs =>
    match f x with
    | Except.error e => Except.error e
    | Except.ok y =>
      match exceptMapM f xs with
      | Except.error e => Except.error e
      | Except.ok ys => Except.ok (y :: ys)

/-- `transform_form_to_airtable(form_data)`: evaluate every `FIELD_MAP` entry
with `_lookup_or_call`, then drop the pairs whose value `is None`. -/
def transform_form_to_airtable (skills_table causes_table : String → Option String)
    (form_data : Submission) : Except PyErr (List (String × Value)) :=
  match exceptMapM (evalEntry form_data) (FIELD_MAP skills_table causes_table) with
  | Except.error e => Except.error e
  | Except.ok pairs =>
    Except.ok (pairs.filterMap (fun p => (p.2).map (fun v => (p.1, v))))

/-- A record of the remote tabular store: an id plus named fields. -/
structure Record where
  id : String
  fields : List (String × String)
deriving DecidableEq

/-- The handle `Airtable(base_key, table_name)` wraps. -/
structure Handle where
  base_key : String
  table_name : String
deriving DecidableEq

/-- State of an `AirTableLinkedRecords` instance. `queries` counts issued
remote `search` calls and `creations` counts constructed table handles;
neither exists in the Python source, they only observe the effects the
claims speak about. -/
structure AirTableLinkedRecords where
  name : String
  key_col : String
  _use_cache : Bool
  _cache : List (String × Option String)
  _table : Option Handle
  queries : Nat
  creations : Nat
deriving DecidableEq

/-- `AirTableLinkedRecords.__init__(table_name, key_col, use_cache)`. -/
def AirTableLinkedRecords.init (table_name key_col : String) (use_cache : Bool) :
    AirTableLinkedRecords :=
  { name := table_name, key_col := key_col, _use_cache := use_cache,
    _cache := [], _table := none, queries := 0, creations := 0 }

/-- The Python constructor defaults: `key_col="Name"`, `use_cache=True`. -/
def AirTableLinkedRecords.initDefault (table_name : String) : AirTableLinkedRecords :=
  AirTableLinkedRecords.init table_name "Name" true

/-- The `table` property: lazily build `Airtable(AIRTABLE_BASE_KEY, self.name)`
on first use, else return the stored handle. -/
def AirTableLinkedRecords.table (self : AirTableLinkedRecords) (base_key : String) :
    Handle × AirTableLinkedRecords :=
  match self._table with
  | some t => (t, self)
  | none =>
    let t : Handle := ⟨base_key, self.name⟩
    (t, { self with _table := some t, creations := self.creations + 1 })

/-- `record_id_by_name(record_name, key_col=None)`: search the (lazily
created) table for `key_col == record_name`; `None` on zero matches, else the
id of the first match. `remote` gives the search results of the external
airtable client, as a function of table name, column and value. -/
def AirTableLinkedRecords.record_id_by_name (self : AirTableLinkedRecords)
    (remote : String → String → String → List Record) (base_key : String)
    (record_name : String) (key_col : Option String) :
    Option String × AirTableLinkedRecords :=
  let kc := match key_col with | none => self.key_col | some k => k
  let ts := self.table base_key
  let res := remote ts.1.table_name kc record_name
  let s2 : AirTableLinkedRecords := { ts.2 with queries := ts.2.queries + 1 }
  ((match res with | [] => none | r :: _ => some r.id), s2)

/-- `__getitem__(record_name)`: return the cached result (which may itself be
a cached `None`), else resolve remotely and, when `_use_cache is True`, store
the result. -/
def AirTableLinkedRecords.getitem (self : AirTableLinkedRecords)
    (remote : String → String → String → List Record) (base_key : String)
    (record_name : String) : Option String × AirTableLinkedRecords :=
  match self._cache.lookup record_name with
  | some record_id => (record_id, self)
  | none =>
    let rs := self.record_id_by_name remote base_key record_name none
    if rs.2._use_cache then
      (rs.1, { rs.2 with _cache := (record_name, rs.1) :: rs.2._cache })
    else
      (rs.1, rs.2)

/-- Modelled from the spec: the external airtable client's
`search(column, value)` (the client library is not part of src/) returns the
records of the table whose `column` field equals `value` exactly. -/
def searchTable (rows : List Record) (column value : String) : List Record :=
  rows.filter (fun r => r.fields.lookup column == some value)

/-! Concrete inputs used by counterexamples and witnesses. -/

/-- A resolver under which no name matches any linked record. -/
def noResolver : String → Option String := fun _ => none

/-- The resolver of C8's example read literally: the submitted label
"No Poverty" is pre-resolved to `rec123`. -/
def rec123Resolver : String → Option String :=
  fun n => if n = "No Poverty" then some "rec123" else none

/-- The causes resolver that makes C8's example meaningful: the remapped
canonical label "1. No Poverty" (what the code actually looks up) resolves
to `rec123`. -/
def canonResolver : String → Option String :=
  fun n => if n = "1. No Poverty" then some "rec123" else none

/-- The C8 example submission, exactly as the spec states it. -/
def adaSubmission : Submission :=
  [("name", "Ada"), ("email", "a@x.com"), ("tech-exp", "-3"), ("student", "on"),
   ("causes[]", "No Poverty")]

/-- The C8 example submission extended with the keys whose absence makes the
transform raise. -/
def adaSubmissionFull : Submission :=
  adaSubmission ++ [("city", "Paris"), ("country", "France"), ("hours", "4")]

/-- The row the code actually produces on `adaSubmissionFull`. -/
def adaRow : List (String × Value) :=
  [("Name", Value.vstr "Ada"),
   ("Email", Value.vstr "a@x.com"),
   ("Country & City of residence", Value.vstr "Paris, France"),
   ("How many years of technical experience do you have?", Value.vint 0),
   ("Are you a student?", Value.vbool true),
   ("What role would you be most interested in playing?", Value.vlist []),
   ("volunteering_type", Value.vlist []),
   ("other_roles", Value.vstr ""),
   ("What amazing skills are you bringing?", Value.vlist []),
   ("Which causes are you most motivated by?", Value.vlist [some "rec123"]),
   ("How many hours can you commit weekly?", Value.vint 4),
   ("Other causes ?", Value.vstr ""),
   ("Other skills?", Value.vstr "")]

/-- A submission with no "causes[]" entries (and the keys the transform needs
to terminate normally). -/
def dNoCauses : Submission :=
  [("name", "Ada"), ("city", "P"), ("country", "F"), ("tech-exp", "1"), ("hours", "2")]

/-- The row the code produces on `dNoCauses`: the two causes-related fields
are present, holding the empty list and the empty string. -/
def rowNoCauses : List (String × Value) :=
  [("Name", Value.vstr "Ada"),
   ("Country & City of residence", Value.vstr "P, F"),
   ("How many years of technical experience do you have?", Value.vint 1),
   ("What role would you be most interested in playing?", Value.vlist []),
   ("volunteering_type", Value.vlist []),
   ("other_roles", Value.vstr ""),
   ("What amazing skills are you bringing?", Value.vlist []),
   ("Which causes are you most motivated by?", Value.vlist []),
   ("How many hours can you commit weekly?", Value.vint 2),
   ("Other causes ?", Value.vstr ""),
   ("Other skills?", Value.vstr "")]

/-- The row C8 claims for its example submission ("under the destination field
names of the mapping table", "with no other fields"). -/
def claimedAdaRow : List (String × Value) :=
  [("Name", Value.vstr "Ada"),
   ("Email", Value.vstr "a@x.com"),
   ("How many years of technical experience do you have?", Value.vint 0),
   ("Are you a student?", Value.vbool true),
   ("Which causes are you most motivated by?", Value.vlist [some "rec123"])]

/-! Arithmetic facts about the `pyInt` model of Python `int`. -/

/-- A digit character is not whitespace. -/
theorem digit_not_ws (c : Char) (h : c.isDigit = true) : c.isWhitespace = false := by
  by_contra hw
  rw [Bool.not_eq_false] at hw
  simp only [Char.isWhitespace, Bool.or_eq_true, decide_eq_true_eq] at hw
  rcases hw with ((h1 | h1) | h1) | h1 <;> subst h1 <;> exact absurd h (by decide)

/-- `dropWhile isWhitespace` keeps an all-digit list intact. -/
theorem dropWhile_ws_digits (l : List Char) (h : ∀ c ∈ l, c.isDigit = true) :
    l.dropWhile Char.isWhitespace = l := by
  cases l with
  | nil => rfl
  | cons c cs =>
    simp [List.dropWhile_cons, digit_not_ws c (h c (List.mem_cons_self c cs))]

/-- On an all-digit run, `parseDigitsCore` folds up the decimal value. -/
theorem parseDigitsCore_digits (cs : List Char) (acc : Nat)
    (h : ∀ c ∈ cs, c.isDigit = true) :
    parseDigitsCore cs acc =
      some (cs.foldl (fun a c => a * 10 + (c.toNat - 48)) acc) := by
  induction cs generalizing acc with
  | nil => rfl
  | cons c cs ih =>
    have hc := h c (List.mem_cons_self c cs)
    rw [parseDigitsCore.eq_def]
    simp only [hc, if_true, List.foldl_cons]
    exact ih _ (fun x hx => h x (List.mem_cons_of_mem c hx))

/-- Python `int` on a nonempty all-digit string returns its decimal value. -/
theorem pyInt_digits (s : String) (h1 : s.data ≠ [])
    (h2 : ∀ c ∈ s.data, c.isDigit = true) :
    pyInt s = some ((decimalVal s.data : Nat) : Int) := by
  unfold pyInt
  rw [dropWhile_ws_digits _ h2,
    dropWhile_ws_digits _ (fun c hc => h2 c (List.mem_reverse.mp hc)),
    List.reverse_reverse]
  cases hsd : s.data with
  | nil => exact absurd hsd h1
  | cons c cs =>
    have hall : ∀ x ∈ c :: cs, x.isDigit = true := fun x hx => h2 x (hsd ▸ hx)
    have hc : c.isDigit = true := hall c (List.mem_cons_self c cs)
    have hplus : ¬(c = '+') := fun he => absurd hc (by rw [he]; decide)
    have hminus : ¬(c = '-') := fun he => absurd hc (by rw [he]; decide)
    simp [pyIntCore, if_neg hplus, if_neg hminus, parseDigitsPy, hc,
      parseDigitsCore_digits cs _ (fun x hx => hall x (List.mem_cons_of_mem c hx)),
      decimalVal]

/-- C1 counterexample: on a submission without the field, the coercer built by
`_to_pos_int("tech-exp")` does not return 0 - the `KeyError` from `d[field_name]`
is not caught by `except ValueError` and propagates. -/
theorem toPositiveInteger_missing_key_raises :
    _to_pos_int "tech-exp" [] = Except.error (PyErr.keyError "tech-exp") ∧
    _to_pos_int "tech-exp" [] ≠ Except.ok (some (Value.vint 0)) := by
  exact ⟨rfl, by decide⟩

/-- C1 (amended): the coercer built by `_to_pos_int(f)` returns `int(s)` when
the submission holds a non-negative integer string `s` at `f`, returns 0 for a
non-numeric string and for a string parsing to a negative integer, and raises
`KeyError` (propagating the error) when the field is missing. -/
theorem toPositiveInteger_spec (f : String) (d : Submission) :
    (∀ s : String, Submission.get d f = some s → s.data ≠ [] →
      (∀ c ∈ s.data, c.isDigit = true) →
      _to_pos_int f d = Except.ok (some (Value.vint ((decimalVal s.data : Nat) : Int)))) ∧
    (∀ s : String, Submission.get d f = some s → pyInt s = none →
      _to_pos_int f d = Except.ok (some (Value.vint 0))) ∧
    (∀ s : String, ∀ i : Int, Submission.get d f = some s → pyInt s = some i → i < 0 →
      _to_pos_int f d = Except.ok (some (Value.vint 0))) ∧
    (Submission.get d f = none → _to_pos_int f d = Except.error (PyErr.keyError f)) := by
  refine ⟨?_, ?_, ?_, ?_⟩
  · intro s hs h1 h2
    have hnn : ¬((decimalVal s.data : Int) < 0) := by omega
    unfold _to_pos_int
    rw [hs]
    simp [pyInt_digits s h1 h2, hnn]
  · intro s hs hp
    unfold _to_pos_int
    rw [hs]
    simp [hp]
  · intro s i hs hp hi
    unfold _to_pos_int
    rw [hs]
    simp [hp, hi]
  · intro h
    unfold _to_pos_int
    rw [h]

/-- Witness for C1: the amended behaviour at "42", "abc", "-3" and a missing
field. -/
theorem toPositiveInteger_spec_witness :
    _to_pos_int "tech-exp" [("tech-exp", "42")] = Except.ok (some (Value.vint 42)) ∧
    _to_pos_int "tech-exp" [("tech-exp", "abc")] = Except.ok (some (Value.vint 0)) ∧
    _to_pos_int "tech-exp" [("tech-exp", "-3")] = Except.ok (some (Value.vint 0)) ∧
    _to_pos_int "hours" [] = Except.error (PyErr.keyError "hours") := by
  refine ⟨?_, ?_, ?_, ?_⟩
  · exact (toPositiveInteger_spec "tech-exp" [("tech-exp", "42")]).1 "42" rfl
      (by decide) (by decide)
  · exact (toPositiveInteger_spec "tech-exp" [("tech-exp", "abc")]).2.1 "abc" rfl (by decide)
  · exact (toPositiveInteger_spec "tech-exp" [("tech-exp", "-3")]).2.2.1 "-3" (-3) rfl
      (by decide) (by decide)
  · exact (toPositiveInteger_spec "hours" []).2.2.2 rfl

/-- C4: the coercer built by `_checkbox_to_bool(f)` returns `True` exactly when
the field is present with first value the literal string "on", and returns no
value (`None`, so the field is omitted rather than set to `False`) in every
other case - including "off", "" and absence. -/
theorem checkboxToBool_spec (f : String) (d : Submission) :
    (_checkbox_to_bool f d = Except.ok (some (Value.vbool true)) ↔
      Submission.get d f = some "on") ∧
    (Submission.get d f ≠ some "on" → _checkbox_to_bool f d = Except.ok none) ∧
    (∀ v : Value, _checkbox_to_bool f d = Except.ok (some v) → v = Value.vbool true) := by
  by_cases h : Submission.get d f = some "on" <;>
    simp [_checkbox_to_bool, h]

/-- Witness for C4: concrete checkbox values "on", "off" and absence. -/
theorem checkboxToBool_spec_witness :
    _checkbox_to_bool "student" [("student", "on")] = Except.ok (some (Value.vbool true)) ∧
    _checkbox_to_bool "student" [("student", "off")] = Except.ok none ∧
    _checkbox_to_bool "student" [] = Except.ok none := by
  refine ⟨(checkboxToBool_spec "student" [("student", "on")]).1.mpr (by decide),
    (checkboxToBool_spec "student" [("student", "off")]).2.1 (by decide),
    (checkboxToBool_spec "student" []).2.1 (by decide)⟩

/-- Helper for C6: the kept entries of `_convert_to_record_ids` are exactly the
successfully resolved ids, in input order. -/
theorem filter_none_convert (names : List String) (resolver : String → Option String) :
    _filter_none (_convert_to_record_ids names resolver) =
      (names.filterMap resolver).map some := by
  induction names with
  | nil => rfl
  | cons n ns ih =>
    cases h : resolver n <;>
      simp [_filter_none, _convert_to_record_ids, List.filterMap_cons, List.filter_cons,
        h] at ih ⊢ <;>
      simp [ih]

/-- Helper for C6: each input name lands in exactly one of the two outputs. -/
theorem partition_lengths (names : List String) (resolver : String → Option String) :
    (_filter_none (_convert_to_record_ids names resolver)).length +
      (_nonrelational_list_inputs names resolver).length = names.length := by
  unfold _filter_none _convert_to_record_ids _nonrelational_list_inputs
  induction names with
  | nil => rfl
  | cons n ns ih =>
    cases h : resolver n <;> simp [List.filter_cons, h] at ih ⊢ <;> omega

/-- C6: splitting a list of names through a resolver yields the ids of the
resolving names (`_convert_to_record_ids` with the `None` entries filtered
out) and the subsequence of names resolving to `None`
(`_nonrelational_list_inputs`); both outputs are stable (subsequences of the
input order), and every input name contributes to exactly one output. -/
theorem partitionResolvable_spec (names : List String) (resolver : String → Option String) :
    _filter_none (_convert_to_record_ids names resolver) =
      (names.filterMap resolver).map some ∧
    _nonrelational_list_inputs names resolver =
      names.filter (fun n => (resolver n).isNone) ∧
    (_filter_none (_convert_to_record_ids names resolver)).length +
      (_nonrelational_list_inputs names resolver).length = names.length ∧
    List.Sublist (_nonrelational_list_inputs names resolver) names ∧
    List.Sublist (_filter_none (_convert_to_record_ids names resolver))
      (names.map resolver) :=
  ⟨filter_none_convert names resolver, rfl, partition_lengths names resolver,
    List.filter_sublist _, List.filter_sublist _⟩

/-- C7: `record_id_by_name` searches the remote table by exact match on the
configured key column (whose constructor default is "Name") and returns the
id of the first matching record, or `None` when nothing matches. -/
theorem recordIdByName_spec (env : String → List Record) (tn kc bk nm : String)
    (uc : Bool) :
    ((AirTableLinkedRecords.init tn kc uc).record_id_by_name
        (fun t c v => searchTable (env t) c v) bk nm none).1 =
      (((env tn).filter (fun r => r.fields.lookup kc == some nm)).head?).map Record.id ∧
    (AirTableLinkedRecords.initDefault tn).key_col = "Name" := by
  constructor
  · simp only [AirTableLinkedRecords.record_id_by_name, AirTableLinkedRecords.table,
      AirTableLinkedRecords.init, searchTable]
    cases h : (env tn).filter (fun r => r.fields.lookup kc == some nm) <;> simp [h]
  · rfl

/-- C9: after construction the remote table handle is absent; the first access
through the `table` property creates it (and only then), and any access on a
state that already holds a handle returns that same handle with the state
unchanged. -/
theorem lazyTableHandle_spec (tn kc bk : String) (uc : Bool) :
    ((AirTableLinkedRecords.init tn kc uc)._table = none) ∧
    (((AirTableLinkedRecords.init tn kc uc).table bk).2._table =
        some (((AirTableLinkedRecords.init tn kc uc).table bk).1) ∧
      ((AirTableLinkedRecords.init tn kc uc).table bk).2.creations =
        (AirTableLinkedRecords.init tn kc uc).creations + 1) ∧
    (∀ s : AirTableLinkedRecords, ∀ t : Handle, s._table = some t →
      s.table bk = (t, s)) := by
  refine ⟨rfl, ⟨rfl, rfl⟩, ?_⟩
  intro s t h
  simp [AirTableLinkedRecords.table, h]

/-- Witness for C9: a second access after the first returns the created handle
and leaves the state, including the creation count, untouched. -/
theorem lazyTableHandle_spec_witness :
    ((AirTableLinkedRecords.init "Skills" "Name" true).table "base").2.table "base" =
      (((AirTableLinkedRecords.init "Skills" "Name" true).table "base").1,
       ((AirTableLinkedRecords.init "Skills" "Name" true).table "base").2) :=
  (lazyTableHandle_spec "Skills" "Name" "base" true).2.2 _ _ rfl

/-- C5: from a fresh resolver, looking the same name up twice issues exactly
one remote query when the cache is enabled (the second call returns the
cached result, even a cached `None`), and two when the cache is disabled. -/
theorem resolverCache_spec (remote : String → String → String → List Record)
    (tn kc bk nm : String) :
    ((((AirTableLinkedRecords.init tn kc true).getitem remote bk nm).2.getitem
        remote bk nm).2.queries = 1 ∧
      (((AirTableLinkedRecords.init tn kc true).getitem remote bk nm).2.getitem
        remote bk nm).1 =
        ((AirTableLinkedRecords.init tn kc true).getitem remote bk nm).1) ∧
    ((((AirTableLinkedRecords.init tn kc false).getitem remote bk nm).2.getitem
        remote bk nm).2.queries = 2) := by
  refine ⟨⟨?_, ?_⟩, ?_⟩ <;>
    simp [AirTableLinkedRecords.getitem, AirTableLinkedRecords.record_id_by_name,
      AirTableLinkedRecords.table, AirTableLinkedRecords.init, List.lookup]

/-! Evaluation lemmas for `_lookup_or_call` and the transform pipeline. -/

/-- `_lookup_or_call` on a literal key, with the outer dispatch reduced. -/
theorem lookup_or_call_key_red (d : Submission) (k : String) :
    _lookup_or_call d (FieldRule.key k) =
      (match Submission.get d k with
        | some s => Except.ok (some (Value.vstr s))
        | none => Except.ok none) := rfl

/-- `_lookup_or_call` on a transform function, with the outer dispatch reduced. -/
theorem lookup_or_call_fn_red (d : Submission)
    (g : Submission → Except PyErr (Option Value)) :
    _lookup_or_call d (FieldRule.fn g) =
      (match g d with
        | Except.error e => Except.error e
        | Except.ok res =>
          match res with
          | some (Value.vlist xs) => Except.ok (some (Value.vlist (_filter_none xs)))
          | other => Except.ok other) := rfl

/-- A literal key never raises: present keys become strings, absent ones `None`. -/
theorem lookup_or_call_key_eq (d : Submission) (k : String) :
    _lookup_or_call d (FieldRule.key k) =
      Except.ok ((Submission.get d k).map Value.vstr) := by
  rw [lookup_or_call_key_red]
  cases Submission.get d k <;> rfl

theorem lookup_or_call_key_ok (d : Submission) (k : String) :
    exceptOk (_lookup_or_call d (FieldRule.key k)) = true := by
  rw [lookup_or_call_key_eq]; rfl

/-- `_lookup_or_call` raises only if the transform function itself raises. -/
theorem lookup_or_call_fn_ok (d : Submission)
    (g : Submission → Except PyErr (Option Value))
    (hg : exceptOk (g d) = true) :
    exceptOk (_lookup_or_call d (FieldRule.fn g)) = true := by
  rw [lookup_or_call_fn_red]
  cases h : g d with
  | error e => rw [h] at hg; exact absurd hg (by simp [exceptOk])
  | ok v =>
    cases v with
    | none => rfl
    | some w => cases w <;> rfl

theorem checkbox_ok (d : Submission) (f : String) :
    exceptOk (_checkbox_to_bool f d) = true := by
  unfold _checkbox_to_bool
  split <;> rfl

/-- `_to_pos_int` does not raise when the field is present. -/
theorem to_pos_int_ok (d : Submission) (f s : String)
    (h : Submission.get d f = some s) :
    exceptOk (_to_pos_int f d) = true := by
  unfold _to_pos_int
  rw [h]
  cases hp : pyInt s <;> simp [hp, exceptOk]

/-- The city/country join does not raise when both keys are present. -/
theorem city_ok (d : Submission) (c co : String)
    (h1 : Submission.get d "city" = some c)
    (h2 : Submission.get d "country" = some co) :
    exceptOk (cityCountryRule d) = true := by
  unfold cityCountryRule
  rw [h1]
  simp [h2, exceptOk]

theorem evalEntry_ok (d : Submission) (kv : String × FieldRule)
    (h : exceptOk (_lookup_or_call d kv.2) = true) :
    exceptOk (evalEntry d kv) = true := by
  unfold evalEntry
  cases h2 : _lookup_or_call d kv.2 with
  | error e => rw [h2] at h; exact absurd h (by simp [exceptOk])
  | ok v => rfl

theorem exceptMapM_ok_of_all {α β : Type} (f : α → Except PyErr β) (l : List α)
    (h : ∀ x ∈ l, exceptOk (f x) = true) : exceptOk (exceptMapM f l) = true := by
  induction l with
  | nil => rfl
  | cons x xs ih =>
    have hx := h x (List.mem_cons_self x xs)
    have hxs := ih (fun z hz => h z (List.mem_cons_of_mem x hz))
    cases hfx : f x with
    | error e => rw [hfx] at hx; exact absurd hx (by simp [exceptOk])
    | ok y =>
      cases hm : exceptMapM f xs with
      | error e => rw [hm] at hxs; exact absurd hxs (by simp [exceptOk])
      | ok ys => simp [exceptMapM, hfx, hm, exceptOk]

theorem transform_ok_of_all (sk cs : String → Option String) (d : Submission)
    (h : ∀ kv ∈ FIELD_MAP sk cs, exceptOk (evalEntry d kv) = true) :
    exceptOk (transform_form_to_airtable sk cs d) = true := by
  have hm := exceptMapM_ok_of_all (evalEntry d) (FIELD_MAP sk cs) h
  unfold transform_form_to_airtable
  cases h2 : exceptMapM (evalEntry d) (FIELD_MAP sk cs) with
  | error e => rw [h2] at hm; exact absurd hm (by simp [exceptOk])
  | ok pairs => rfl

theorem evalEntry_key_eq (d : Submission) (k k2 : String) :
    evalEntry d (k, FieldRule.key k2) =
      Except.ok (k, (Submission.get d k2).map Value.vstr) := by
  simp [evalEntry, lookup_or_call_key_eq]

theorem cityCountryRule_red (d : Submission) :
    cityCountryRule d =
      (match Submission.get d "city" with
        | none => Except.error (PyErr.keyError "city")
        | some c =>
          match Submission.get d "country" with
          | none => Except.error (PyErr.keyError "country")
          | some co => Except.ok (some (Value.vstr (_list_to_string [c, co])))) := rfl

theorem evalEntry_fn_red (d : Submission) (k : String)
    (g : Submission → Except PyErr (Option Value)) :
    evalEntry d (k, FieldRule.fn g) =
      (match (match g d with
          | Except.error e => Except.error e
          | Except.ok res =>
            match res with
            | some (Value.vlist xs) => Except.ok (some (Value.vlist (_filter_none xs)))
            | other => Except.ok other) with
        | Except.error e => Except.error e
        | Except.ok v => Except.ok (k, v)) := rfl

/-- A missing "city" key makes the third `FIELD_MAP` entry raise `KeyError`. -/
theorem evalEntry_city_err (d : Submission) (h : Submission.get d "city" = none) :
    evalEntry d ("Country & City of residence", FieldRule.fn cityCountryRule) =
      Except.error (PyErr.keyError "city") := by
  rw [evalEntry_fn_red]
  rw [cityCountryRule_red, h]

/-- C2 (amended): the transform raises no error on any submission containing
the keys "city", "country", "tech-exp" and "hours" - every other per-field
failure degrades to absence or to the default integer 0 - but a submission
missing "city" makes the pipeline propagate `KeyError("city")` (and likewise
for the other three keys read directly inside transform rules). -/
theorem transform_failure_semantics (sk cs : String → Option String) (d : Submission) :
    ((Submission.get d "city").isSome → (Submission.get d "country").isSome →
      (Submission.get d "tech-exp").isSome → (Submission.get d "hours").isSome →
      exceptOk (transform_form_to_airtable sk cs d) = true) ∧
    (Submission.get d "city" = none →
      transform_form_to_airtable sk cs d = Except.error (PyErr.keyError "city")) := by
  constructor
  · intro hc0 hco0 ht0 hh0
    obtain ⟨c, hc⟩ := Option.isSome_iff_exists.mp hc0
    obtain ⟨co, hco⟩ := Option.isSome_iff_exists.mp hco0
    obtain ⟨ts, ht⟩ := Option.isSome_iff_exists.mp ht0
    obtain ⟨hs, hh⟩ := Option.isSome_iff_exists.mp hh0
    apply transform_ok_of_all
    intro kv hkv
    simp only [FIELD_MAP, List.mem_cons, List.not_mem_nil, or_false] at hkv
    rcases hkv with rfl | rfl | rfl | rfl | rfl | rfl | rfl | rfl | rfl | rfl | rfl |
      rfl | rfl | rfl | rfl | rfl | rfl | rfl | rfl | rfl | rfl
    · exact evalEntry_ok d _ (lookup_or_call_key_ok d "name")
    · exact evalEntry_ok d _ (lookup_or_call_key_ok d "email")
    · exact evalEntry_ok d _ (lookup_or_call_fn_ok d _ (city_ok d c co hc hco))
    · exact evalEntry_ok d _ (lookup_or_call_key_ok d "linked-in")
    · exact evalEntry_ok d _ (lookup_or_call_key_ok d "github")
    · exact evalEntry_ok d _ (lookup_or_call_key_ok d "non-profit-experience")
    · exact evalEntry_ok d _ (lookup_or_call_fn_ok d _ (to_pos_int_ok d "tech-exp" ts ht))
    · exact evalEntry_ok d _ (lookup_or_call_fn_ok d _ (checkbox_ok d "student"))
    · exact evalEntry_ok d _ (lookup_or_call_fn_ok d _ (checkbox_ok d "mentor"))
    · exact evalEntry_ok d _ (lookup_or_call_fn_ok d _ rfl)
    · exact evalEntry_ok d _ (lookup_or_call_fn_ok d _ rfl)
    · exact evalEntry_ok d _ (lookup_or_call_fn_ok d _ rfl)
    · exact evalEntry_ok d _ (lookup_or_call_fn_ok d _ rfl)
    · exact evalEntry_ok d _ (lookup_or_call_fn_ok d _ rfl)
    · exact evalEntry_ok d _ (lookup_or_call_fn_ok d _ (to_pos_int_ok d "hours" hs hh))
    · exact evalEntry_ok d _ (lookup_or_call_key_ok d "project")
    · exact evalEntry_ok d _ (lookup_or_call_key_ok d "other")
    · exact evalEntry_ok d _ (lookup_or_call_key_ok d "recommendations")
    · exact evalEntry_ok d _ (lookup_or_call_fn_ok d _ rfl)
    · exact evalEntry_ok d _ (lookup_or_call_key_ok d "org")
    · exact evalEntry_ok d _ (lookup_or_call_fn_ok d _ rfl)
  · intro h
    simp [transform_form_to_airtable, FIELD_MAP, exceptMapM, evalEntry_key_eq,
      evalEntry_city_err d h]

/-- C2 counterexample: the pipeline does raise - on the empty submission it
propagates the `KeyError("city")` of the city/country join rule. -/
theorem transform_raises_on_missing_city :
    transform_form_to_airtable noResolver noResolver [] =
      Except.error (PyErr.keyError "city") := rfl

/-- Witness for C2: a submission with the four required keys transforms
without error; one missing "city" propagates `KeyError`. -/
theorem transform_failure_semantics_witness :
    exceptOk (transform_form_to_airtable noResolver noResolver dNoCauses) = true ∧
    transform_form_to_airtable noResolver noResolver [("name", "Ada")] =
      Except.error (PyErr.keyError "city") :=
  ⟨(transform_failure_semantics noResolver noResolver dNoCauses).1
      (by decide) (by decide) (by decide) (by decide),
    (transform_failure_semantics noResolver noResolver [("name", "Ada")]).2 (by decide)⟩

/-- Provenance of the comprehension's pairs: keys follow the field map, and
every produced pair is the `_lookup_or_call` result of its entry. -/
theorem exceptMapM_evalEntry_spec (d : Submission) (l : List (String × FieldRule))
    (pairs : List (String × Option Value))
    (h : exceptMapM (evalEntry d) l = Except.ok pairs) :
    pairs.map Prod.fst = l.map Prod.fst ∧
    ∀ p ∈ pairs, ∃ rule, (p.1, rule) ∈ l ∧ _lookup_or_call d rule = Except.ok p.2 := by
  induction l generalizing pairs with
  | nil =>
    simp only [exceptMapM] at h
    injection h with h
    subst h
    simp
  | cons x xs ih =>
    simp only [exceptMapM] at h
    cases hl : _lookup_or_call d x.2 with
    | error e =>
      rw [show evalEntry d x = Except.error e from by unfold evalEntry; rw [hl]] at h
      simp at h
    | ok v =>
      rw [show evalEntry d x = Except.ok (x.1, v) from by unfold evalEntry; rw [hl]] at h
      cases hm : exceptMapM (evalEntry d) xs with
      | error e => rw [hm] at h; simp at h
      | ok ys =>
        rw [hm] at h
        simp at h
        subst h
        obtain ⟨ih1, ih2⟩ := ih ys hm
        constructor
        · simp [ih1]
        · intro p hp
          rcases List.mem_cons.mp hp with hp1 | hp2
          · subst hp1
            exact ⟨x.2, List.mem_cons_self x xs, hl⟩
          · obtain ⟨rule, hr1, hr2⟩ := ih2 p hp2
            exact ⟨rule, List.mem_cons_of_mem x hr1, hr2⟩

/-- Each row entry comes from a pair whose value was `some`. -/
theorem mem_row_mem_pairs (pairs : List (String × Option Value)) (kv : String × Value)
    (h : kv ∈ pairs.filterMap (fun p => (p.2).map (fun v => (p.1, v)))) :
    (kv.1, some kv.2) ∈ pairs := by
  rw [List.mem_filterMap] at h
  obtain ⟨p, hp, he⟩ := h
  cases h2 : p.2 with
  | none => rw [h2] at he; simp at he
  | some v =>
    rw [h2] at he
    have h3 : (p.1, v) = kv := Option.some.inj he
    subst h3
    rw [← h2]
    exact hp

/-- In an association list with distinct keys, a key determines its value. -/
theorem keys_unique {α : Type} (l : List (String × α)) (h : (l.map Prod.fst).Nodup)
    (k : String) (a b : α) (ha : (k, a) ∈ l) (hb : (k, b) ∈ l) : a = b := by
  induction l with
  | nil => cases ha
  | cons x xs ih =>
    simp only [List.map_cons, List.nodup_cons] at h
    rcases List.mem_cons.mp ha with ha1 | ha2 <;> rcases List.mem_cons.mp hb with hb1 | hb2
    · exact congrArg Prod.snd (ha1.trans hb1.symm)
    · exfalso
      apply h.1
      rw [← ha1]
      exact List.mem_map.mpr ⟨(k, b), hb2, rfl⟩
    · exfalso
      apply h.1
      rw [← hb1]
      exact List.mem_map.mpr ⟨(k, a), ha2, rfl⟩
    · exact ih h.2 ha2 hb2

/-- The 21 destination field names of `FIELD_MAP` are pairwise distinct. -/
theorem fieldMapKeysNodup (sk cs : String → Option String) :
    ((FIELD_MAP sk cs).map Prod.fst).Nodup := by
  have he : (FIELD_MAP sk cs).map Prod.fst =
      (FIELD_MAP noResolver noResolver).map Prod.fst := rfl
  rw [he]
  decide

/-- A successful transform is the `None`-filtered comprehension over the map. -/
theorem transform_ok_elim (sk cs : String → Option String) (d : Submission)
    (row : List (String × Value))
    (h : transform_form_to_airtable sk cs d = Except.ok row) :
    ∃ pairs, exceptMapM (evalEntry d) (FIELD_MAP sk cs) = Except.ok pairs ∧
      row = pairs.filterMap (fun p => (p.2).map (fun v => (p.1, v))) := by
  unfold transform_form_to_airtable at h
  cases hm : exceptMapM (evalEntry d) (FIELD_MAP sk cs) with
  | error e => rw [hm] at h; simp at h
  | ok pairs =>
    rw [hm] at h
    simp at h
    exact ⟨pairs, rfl, h.symm⟩

/-- C10: every key of a row returned by the transform is one of the
destination field names enumerated in `FIELD_MAP` - the transform never
invents a field outside the declared mapping table. -/
theorem transform_keys_in_field_map (sk cs : String → Option String) (d : Submission)
    (row : List (String × Value))
    (h : transform_form_to_airtable sk cs d = Except.ok row) :
    ∀ kv ∈ row, kv.1 ∈ (FIELD_MAP sk cs).map Prod.fst := by
  intro kv hkv
  obtain ⟨pairs, hm, hrow⟩ := transform_ok_elim sk cs d row h
  obtain ⟨keysEq, -⟩ := exceptMapM_evalEntry_spec d _ pairs hm
  have hp : (kv.1, some kv.2) ∈ pairs := mem_row_mem_pairs pairs kv (hrow ▸ hkv)
  rw [← keysEq]
  exact List.mem_map.mpr ⟨(kv.1, some kv.2), hp, rfl⟩

/-- Witness for C10: on a concrete successful transform, a produced key is a
`FIELD_MAP` destination name. -/
theorem transform_keys_in_field_map_witness :
    "Name" ∈ (FIELD_MAP noResolver noResolver).map Prod.fst :=
  transform_keys_in_field_map noResolver noResolver dNoCauses rowNoCauses rfl
    ("Name", Value.vstr "Ada") (by decide)

/-- C3 counterexample: a submission with no "causes[]" entries still yields a
row with both causes-related fields - the empty list and the empty string are
not `None`, so they are kept. -/
theorem transform_keeps_empty_causes_fields :
    transform_form_to_airtable noResolver noResolver dNoCauses = Except.ok rowNoCauses ∧
    ("Which causes are you most motivated by?", Value.vlist []) ∈ rowNoCauses ∧
    ("Other causes ?", Value.vstr "") ∈ rowNoCauses :=
  ⟨rfl, by decide, by decide⟩

/-- C3 (amended): a returned row never contains a field whose computed value
was absent (`None`) - every row entry stems from a rule that produced a
present value, and a rule producing `None` leaves its key out of the row -
but empty lists and empty strings are present values, so a submission with no
"causes[]" entries keeps its causes fields with empty values. -/
theorem transform_sparse_row (sk cs : String → Option String) (d : Submission)
    (row : List (String × Value))
    (h : transform_form_to_airtable sk cs d = Except.ok row) :
    (∀ k rule, (k, rule) ∈ FIELD_MAP sk cs → _lookup_or_call d rule = Except.ok none →
      k ∉ row.map Prod.fst) ∧
    (∀ kv ∈ row, ∃ rule, (kv.1, rule) ∈ FIELD_MAP sk cs ∧
      _lookup_or_call d rule = Except.ok (some kv.2)) := by
  obtain ⟨pairs, hm, hrow⟩ := transform_ok_elim sk cs d row h
  obtain ⟨keysEq, hprov⟩ := exceptMapM_evalEntry_spec d _ pairs hm
  constructor
  · intro k rule hmem hnone hk
    rw [hrow] at hk
    rw [List.mem_map] at hk
    obtain ⟨kv, hkv, hk1⟩ := hk
    have hp := mem_row_mem_pairs pairs kv hkv
    obtain ⟨rule2, hr2mem, hr2⟩ := hprov (kv.1, some kv.2) hp
    have heq : rule2 = rule := by
      apply keys_unique (FIELD_MAP sk cs) (fieldMapKeysNodup sk cs) k
      · rw [← hk1]; exact hr2mem
      · exact hmem
    rw [heq] at hr2
    rw [hnone] at hr2
    simp at hr2
  · intro kv hkv
    have hp := mem_row_mem_pairs pairs kv (hrow ▸ hkv)
    obtain ⟨rule, hr1, hr2⟩ := hprov (kv.1, some kv.2) hp
    exact ⟨rule, hr1, hr2⟩

/-- Witness for C3: "LinkedIn" maps to the absent key "linked-in" of
`dNoCauses`, so the produced row has no "LinkedIn" field. -/
theorem transform_sparse_row_witness :
    "LinkedIn" ∉ rowNoCauses.map Prod.fst :=
  (transform_sparse_row noResolver noResolver dNoCauses rowNoCauses rfl).1
    "LinkedIn" (FieldRule.key "linked-in") (by simp [FIELD_MAP]) (by rfl)

/-- C8 counterexample: on the exact example submission (no "city", "country"
or "hours" keys) the transform does not produce the claimed row - it
propagates `KeyError("city")`. -/
theorem transform_ada_example_raises :
    transform_form_to_airtable noResolver rec123Resolver adaSubmission =
      Except.error (PyErr.keyError "city") ∧
    transform_form_to_airtable noResolver rec123Resolver adaSubmission ≠
      Except.ok claimedAdaRow :=
  ⟨rfl, by decide⟩

/-- C8 (amended): with "city", "country" and "hours" added to the example
submission and the remapped label "1. No Poverty" (what the code actually
looks up after `CAUSES_MAP`) resolving to rec123, the transform yields the
claimed name/email/tech-exp 0/student true/causes [rec123] fields together
with the city-country join, hours, and empty-valued roles/types/skills/other
fields - not "no other fields". -/
theorem transform_ada_full_row :
    transform_form_to_airtable noResolver canonResolver adaSubmissionFull =
      Except.ok adaRow := rfl
